import Mathlib

/-!
Shallow embedding of the Swiss Assistenzarzt job-application bot
(`src/app.py`, a single-file Streamlit application) together with proofs
about its job selection, email-draft parsing, prompt construction,
persistence handling, and session/profile state transitions.

Strings manipulated by the Python code are modelled as `String` /
`List Char`; Python's `None` and missing values are modelled with
`Option`; a Python exception escaping a function is modelled by an
`Option`-valued result being `none`.
-/

/-! ### Python string primitives

Models of the Python `str` operations used by `app.py`, operating on
`List Char`.  `pyStrip` models `str.strip()` (ASCII whitespace),
`pyContains` models `sub in s`, `splitOnce` models the effect of
`s.split(sep, 1)` (split at the first occurrence), `pySplitChar` models
`s.split(",")`, and `removeBetreff` / `removeSubject` model
`s.replace('Betreff:', '')` / `s.replace('Subject:', '')` (left-to-right
removal of every non-overlapping occurrence, as Python `str.replace`
does). -/

def pyIsSpace (c : Char) : Bool :=
  c = ' ' || c = '\t' || c = '\n' || c = '\r' || c = '\x0b' || c = '\x0c'

def pyStrip (l : List Char) : List Char :=
  ((l.dropWhile pyIsSpace).reverse.dropWhile pyIsSpace).reverse

def pyContains (pat : List Char) : List Char → Bool
  | [] => false
  | x :: xs => pat.isPrefixOf (x :: xs) || pyContains pat xs

def splitOnce (pat : List Char) : List Char → Option (List Char × List Char)
  | [] => none
  | x :: xs =>
    if pat.isPrefixOf (x :: xs) then some ([], (x :: xs).drop pat.length)
    else (splitOnce pat xs).map (fun p => (x :: p.1, p.2))

/-- Model of Python `s.split(sep, 1)`: one part when `sep` does not occur,
two parts (before / after the first occurrence) when it does. -/
def pySplit1 (pat l : List Char) : List (List Char) :=
  match splitOnce pat l with
  | none => [l]
  | some (a, b) => [a, b]

def pySplitChar (c : Char) : List Char → List (List Char)
  | [] => [[]]
  | x :: xs =>
    if x = c then [] :: pySplitChar c xs
    else
      match pySplitChar c xs with
      | t :: ts => (x :: t) :: ts
      | [] => [[x]]

def removeBetreff : List Char → List Char
  | 'B' :: 'e' :: 't' :: 'r' :: 'e' :: 'f' :: 'f' :: ':' :: rest => removeBetreff rest
  | x :: xs => x :: removeBetreff xs
  | [] => []

def removeSubject : List Char → List Char
  | 'S' :: 'u' :: 'b' :: 'j' :: 'e' :: 'c' :: 't' :: ':' :: rest => removeSubject rest
  | x :: xs => x :: removeSubject xs
  | [] => []

/-- Python truthiness of an optional string (`None` and `""` are falsy). -/
def pyTruthy : Option String → Bool
  | none => false
  | some s => !s.data.isEmpty

/-- Python `str()` interpolation of an optional string into an f-string:
`None` renders as `"None"`. -/
def pyStr : Option String → String
  | none => "None"
  | some s => s

/-! ### Email draft generation (`generate_personalized_email`, lines 96-143)

The call to the OpenAI API (`call_openai_api`, lines 77-94) is modelled by
the `response : Option String` argument: `none` is a failed call (missing
key or caught exception), `some r` the trimmed text of the first
completion choice.  The function returns the prompt it builds together
with the parsed result; a `none` result would mean an uncaught exception
(list indexing past the end), which claim C10 rules out. -/

structure EmailContent where
  subject : String
  body : String
deriving DecidableEq, Repr

def sepL : List Char := ['|', '|', '|']

def fallbackSubject : String := "Bewerbung f√ºr die ausgeschriebene Position"

def failBody : String := "Could not generate email body."

/-- Lines 137-143 of `app.py`: branch on `response and '|||' in response`,
split at the first `'|||'`, remove the `Betreff:` / `Subject:` labels from
part one and strip both parts; otherwise fall back.  `parts[0]` and
`parts[1]` are modelled by honest list indexing (`List.get?`), so an
out-of-range index yields `none` (an uncaught `IndexError`). -/
def parseEmailResponse (response : Option String) : Option EmailContent :=
  match response with
  | some r =>
    if !r.data.isEmpty && pyContains sepL r.data then
      match (pySplit1 sepL r.data).get? 0, (pySplit1 sepL r.data).get? 1 with
      | some p0, some p1 =>
        some ⟨⟨pyStrip (removeSubject (removeBetreff p0))⟩, ⟨pyStrip p1⟩⟩
      | _, _ => none
    else
      some ⟨fallbackSubject, if r.data.isEmpty then failBody else r⟩
  | none => some ⟨fallbackSubject, failBody⟩

/-- Lines 100-109: the structured job-details block of the prompt. -/
def structuredBlock (jt hn c jd : String) : String :=
  "\n- Position: " ++ jt ++ "\n- Hospital: " ++ hn ++ "\n- Canton: " ++ c ++
    "\n- Job Description:\n---\n" ++ jd ++ "\n---\n"

/-- Lines 110-116: the unstructured job-details block of the prompt. -/
def unstructuredBlock (jd : String) : String :=
  "\n- Job Details (extract relevant info from this block):\n---\n" ++ jd ++ "\n---\n"

/-- Lines 100-116: `if job_title and hospital_name:` selects the
structured block, otherwise the unstructured one. -/
def jobDetailsBlock (job_title hospital_name canton job_description : Option String) : String :=
  if pyTruthy job_title && pyTruthy hospital_name then
    structuredBlock (pyStr job_title) (pyStr hospital_name) (pyStr canton)
      (pyStr job_description)
  else
    unstructuredBlock (pyStr job_description)

/-- Lines 118-127 of the outer prompt f-string, up to the job-details hole. -/
def promptHeader (cv : String) : String :=
  "\nAct as a professional medical career advisor in Switzerland.\nYour task is to create a compelling application email in German.\n\n**Applicant's Profile (from CV):**\n---\n" ++
    cv ++ "\n---\n**Job Details:**\n"

/-- Lines 129-135 of the outer prompt f-string, after the job-details hole. -/
def promptInstructions : String :=
  "\n\n**Instructions:**\n1.  **Analyze Job Details:** If the job details are in a block of text, first identify the likely job title and company/hospital name.\n2.  **Generate a Subject Line:** Create a concise, professional German subject line for the application.\n3.  **Generate an Email Body:** Write a polite, personalized email connecting the applicant's CV to the job requirements.\n4.  **Output Format:** Your final output MUST contain the subject and body separated by '|||'.\n    Example: Betreff: Bewerbung als Assistenzarzt|||Sehr geehrte Damen und Herren,...\n"

/-- `generate_personalized_email` (lines 96-143): builds the prompt and
parses the model response.  First component: the prompt sent to the
model; second: the returned `{'subject': ..., 'body': ...}` record. -/
def generate_personalized_email (cv_content : String)
    (job_title hospital_name canton job_description : Option String)
    (response : Option String) : String × Option EmailContent :=
  (promptHeader cv_content ++
      jobDetailsBlock job_title hospital_name canton job_description ++
      promptInstructions,
    parseEmailResponse response)

/-! ### Specification-side definitions for the email-parsing claims

`firstOccIdx` expresses "the first occurrence of `pat`" independently of
the scanner `splitOnce`: it is the smallest index `i` at which `pat` is a
prefix of the remaining suffix.  `parseAmendedSpec` states the amended
parsing contract of claim C2 in those terms; `parseClaimC2` states the
parsing contract exactly as claim C2 words it (a leading label stripped
at most once, raw text as fallback body). -/

def firstOccIdx (pat l : List Char) : Option Nat :=
  (List.range (l.length + 1)).find? (fun i => pat.isPrefixOf (l.drop i))

def betreffLabel : List Char := "Betreff:".data

def subjectLabel : List Char := "Subject:".data

/-- The amended contract of claim C2: split at the first occurrence of
`'|||'`; subject = part one with every occurrence of `Betreff:` and then
every occurrence of `Subject:` removed and whitespace stripped; body =
part two stripped; without a separator the fallback subject is paired
with the raw text, or with the placeholder when the response is empty or
the call failed. -/
def parseAmendedSpec : Option String → EmailContent
  | none => ⟨fallbackSubject, failBody⟩
  | some r =>
    match firstOccIdx sepL r.data with
    | some i =>
      ⟨⟨pyStrip (removeSubject (removeBetreff (r.data.take i)))⟩,
        ⟨pyStrip (r.data.drop (i + 3))⟩⟩
    | none => ⟨fallbackSubject, if r.data.isEmpty then failBody else r⟩

/-- The contract exactly as claim C2 states it: strip a leading literal
`Betreff:` or `Subject:` label (at most one occurrence, leading position
only) plus surrounding whitespace from part one; for a response without
`'|||'`, the raw response text is the body. -/
def parseClaimC2 : Option String → EmailContent
  | none => ⟨fallbackSubject, failBody⟩
  | some r =>
    match firstOccIdx sepL r.data with
    | some i =>
      let p0 := r.data.take i
      let labelStripped :=
        if betreffLabel.isPrefixOf p0 then p0.drop betreffLabel.length
        else if subjectLabel.isPrefixOf p0 then p0.drop subjectLabel.length
        else p0
      ⟨⟨pyStrip labelStripped⟩, ⟨pyStrip (r.data.drop (i + 3))⟩⟩
    | none => ⟨fallbackSubject, r⟩

/-! ### Job catalog and selector (`render_job_finder`, lines 249-303)

A catalog row models one row of `Assistenzarzt_Jobs_CH__Combined_Final.csv`
as seen through `row.get(column, default)`: `none` means the column is
absent from the file (so `get` returns its default), `some s` a string
cell.  `eligibleRow` is the condition of line 260:
`isinstance(row.get("Application Contact Email"), str) and "@" in row.get("Application Contact Email", "")`. -/

structure Row where
  job_title : Option String
  hospital_name : Option String
  canton : Option String
  appContactEmail : Option String
  application_url : Option String
  jobDescriptionShort : Option String
deriving DecidableEq, Repr

def eligibleRow (r : Row) : Bool :=
  match r.appContactEmail with
  | some s => s.data.contains '@'
  | none => false

/-- The loop of lines 259-262, scanning rows from position `i` upward:
the first row whose stringified index is not in `applied` and which is
eligible. -/
def findFrom (applied : List String) : Nat → List Row → Option (Nat × Row)
  | _, [] => none
  | i, r :: rs =>
    if !applied.contains (toString i) && eligibleRow r then some (i, r)
    else findFrom applied (i + 1) rs

/-- The selector of `render_job_finder` (lines 258-265): scan always
starts at row zero; `none` models the "All jobs from the CSV have been
processed!" (catalog exhausted) outcome. -/
def render_job_finder_select (rows : List Row) (applied : List String) :
    Option (Nat × Row) :=
  findFrom applied 0 rows

/-- Line 275: `str(row_data.get("Application Contact Email", "")).strip().split(",")[0]`. -/
def contactEmailOf (s : String) : String :=
  ⟨(pySplitChar ',' (pyStrip s.data)).headD []⟩

/-- Claim C4's reading: the first comma-separated token of the raw field,
with that token itself trimmed of surrounding whitespace. -/
def contactEmailClaim (s : String) : String :=
  ⟨pyStrip ((pySplitChar ',' s.data).headD [])⟩

/-- The amended contract of claim C4: the whole field is trimmed first,
and the contact email is the run of characters of the trimmed field
before its first comma (so whitespace adjacent to the comma survives). -/
def contactEmailAmended (s : String) : String :=
  ⟨(pyStrip s.data).takeWhile (fun c => c ≠ ',')⟩

/-- Lines 272-278: the `current_job_details` record built from a selected
row. -/
structure JobDetails where
  job_id : Nat
  job_title : String
  hospital_name : String
  canton : String
  contact_email : String
  application_url : String
  job_description : String
deriving DecidableEq, Repr

def detailsOfRow (i : Nat) (r : Row) : JobDetails :=
  { job_id := i
    job_title := r.job_title.getD "N/A"
    hospital_name := r.hospital_name.getD ""
    canton := r.canton.getD ""
    contact_email := contactEmailOf (r.appContactEmail.getD "")
    application_url := r.application_url.getD ""
    job_description := r.jobDescriptionShort.getD "" }

/-! ### Persistence connection and main layout (lines 33-45, 379-395)

`get_firestore_db` catches every exception: a missing
`FIREBASE_SERVICE_ACCOUNT_JSON` (modelled by `env = none`) and a failing
parse/authentication (modelled by `connect` returning `.error`) both
yield `none` plus a surfaced `st.error` message.  `mainLayout` models
lines 393-395: the cached handle is reused, a fresh connection is
attempted otherwise, and a missing handle triggers `st.stop()`
(`RenderOutcome.halted`); only with a handle is the `step` page
rendered. -/

structure DbHandle where
  id : Nat
deriving DecidableEq, Repr

inductive Step where
  | auth
  | upload_cv
  | main_app
deriving DecidableEq, Repr

inductive RenderOutcome where
  | halted
  | page (s : Step)
deriving DecidableEq, Repr

def get_firestore_db (env : Option String)
    (connect : String → Except String DbHandle) : Option DbHandle × List String :=
  match env with
  | none => (none, ["Firebase service account JSON not found."])
  | some s =>
    match connect s with
    | .ok h => (some h, [])
    | .error e => (none, ["Failed to connect to Firebase: " ++ e])

def mainLayout (env : Option String) (connect : String → Except String DbHandle)
    (sessionDb : Option DbHandle) (step : Step) : RenderOutcome × List String :=
  match (match sessionDb with
         | some h => (some h, [])
         | none => get_firestore_db env connect) with
  | (none, errs) => (RenderOutcome.halted, errs)
  | (some _, errs) => (RenderOutcome.page step, errs)

/-! ### Session state, profile, and user-action handlers

`Session` models the `st.session_state` keys initialised at lines
383-391 (the persistence handle is passed separately where needed).
`Profile` models the durable Firestore `user_profile` document:
`applied_jobs`, `stats.sent_count`, `stats.skipped_count`, and the
`sent_emails` sub-collection.  `arrayUnion` models
`firestore.ArrayUnion([x])` (append only when absent). -/

structure UploadedFile where
  name : String
deriving DecidableEq, Repr

structure SentEmail where
  recipient : String
  subject : String
  body : String
  job_title : String
  hospital_name : String
deriving DecidableEq, Repr

structure Profile where
  applied_jobs : List String
  sent_count : Nat
  skipped_count : Nat
  sent_emails : List SentEmail
deriving DecidableEq, Repr

structure ManualJobDetails where
  job_title : String
  contact_email : String
  job_description : String
deriving DecidableEq, Repr

structure Session where
  step : Step
  cv_content : Option String
  attachments : List UploadedFile
  current_job_id : Option Nat
  current_job_details : Option JobDetails
  generated_email_content : Option EmailContent
  manual_email_content : Option EmailContent
  manual_job_details : Option ManualJobDetails
deriving DecidableEq, Repr

/-- The `default_states` of lines 383-391. -/
def defaultSession : Session :=
  { step := Step.auth
    cv_content := none
    attachments := []
    current_job_id := none
    current_job_details := none
    generated_email_content := none
    manual_email_content := none
    manual_job_details := none }

def arrayUnion (l : List String) (x : String) : List String :=
  if x ∈ l then l else l ++ [x]

/-- The `upload_cv` step, lines 413-417: on a non-empty upload the WHOLE
uploaded list becomes `st.session_state.attachments` and the first file
is the CV (`cv_file = uploaded_files[0]`); an empty upload does
nothing.  Second component: the file treated as the CV. -/
def upload_cv_step (sess : Session) (uploaded : List UploadedFile) :
    Session × Option UploadedFile :=
  match uploaded with
  | [] => (sess, none)
  | f :: fs => ({ sess with attachments := f :: fs }, some f)

/-- The "Skip Job" handler, lines 297-300: `ArrayUnion` of the stringified
job id, atomic increment of `stats.skipped_count`, and clearing of
`current_job_id`. -/
def skipJob (sess : Session) (prof : Profile) (jobId : Nat) : Session × Profile :=
  ({ sess with current_job_id := none },
    { prof with
        applied_jobs := arrayUnion prof.applied_jobs (toString jobId)
        skipped_count := prof.skipped_count + 1 })

inductive SendOutcome where
  | rejectedNoAttachments
  | sendFailed
  | sentOk
deriving DecidableEq, Repr

/-- The submit branch of `render_application_form`, lines 353-370.  The
`details` dict read at lines 309-316 is either the catalog job
(`Sum.inl`) or the manual entry (`Sum.inr`); `sendOk` is the result of
`send_email_logic` (an external call).  Zero total attachments reject
the submission unchanged; a failed send changes nothing; a successful
send appends a `SentEmail` record and, in catalog mode only, marks the
job applied, increments `stats.sent_count` and clears `current_job_id`,
while manual mode only clears the manual draft. -/
def render_application_form_submit (details : JobDetails ⊕ ManualJobDetails)
    (sess : Session) (prof : Profile) (new_attachments : List UploadedFile)
    (sendOk : Bool) (contact_email subject body : String) :
    Session × Profile × SendOutcome :=
  let all_attachments := sess.attachments ++ new_attachments
  if all_attachments.isEmpty then (sess, prof, SendOutcome.rejectedNoAttachments)
  else if sendOk then
    let jt := match details with
      | .inl d => d.job_title
      | .inr m => m.job_title
    let hn := match details with
      | .inl d => d.hospital_name
      | .inr _ => "Manual Entry"
    let prof1 := { prof with
      sent_emails := prof.sent_emails ++ [⟨contact_email, subject, body, jt, hn⟩] }
    match details with
    | .inr _ =>
      ({ sess with manual_email_content := none }, prof1, SendOutcome.sentOk)
    | .inl d =>
      ({ sess with current_job_id := none },
        { prof1 with
            applied_jobs := arrayUnion prof1.applied_jobs (toString d.job_id)
            sent_count := prof1.sent_count + 1 },
        SendOutcome.sentOk)
  else (sess, prof, SendOutcome.sendFailed)

/-- The manual-job submission handler, lines 221-244.  The form is only
rendered while `manual_email_content` is falsy; a submission with both
fields non-empty stores `manual_job_details` (with the placeholder job
title) and the generated draft `gen`, touching nothing else; `gen`
stands for the result of the one `generate_personalized_email` call the
branch makes, and the returned `Nat` counts those calls. -/
def render_manual_job_page_submit (sess : Session) (prof : Profile)
    (contact_email job_description : String) (gen : EmailContent) :
    Session × Profile × Nat :=
  if sess.manual_email_content.isSome then (sess, prof, 0)
  else if !contact_email.data.isEmpty && !job_description.data.isEmpty then
    ({ sess with
        manual_job_details :=
          some ⟨"Manual Entry", contact_email, job_description⟩
        manual_email_content := some gen },
      prof, 1)
  else (sess, prof, 0)

/-! ### Sequences of skip / send actions (claim C8) -/

inductive UserAction where
  | skip (jobId : Nat)
  | send (details : JobDetails ⊕ ManualJobDetails)
      (new_attachments : List UploadedFile) (sendOk : Bool)
      (contact_email subject body : String)
deriving DecidableEq

def applyAction (sp : Session × Profile) (a : UserAction) : Session × Profile :=
  match a with
  | .skip j => skipJob sp.1 sp.2 j
  | .send det new ok ce su bo =>
    let r := render_application_form_submit det sp.1 sp.2 new ok ce su bo
    (r.1, r.2.1)

def runActions (sp : Session × Profile) (acts : List UserAction) : Session × Profile :=
  acts.foldl applyAction sp

/-- The job id (as a string) that one action durably records into
`applied_jobs`, given the session attachment list in force: a skip
always records; a catalog-mode send records exactly when its effective
attachment set is non-empty and the send succeeded; a manual-mode send
never records. -/
def actionRecords (atts : List UploadedFile) : UserAction → Option String
  | .skip j => some (toString j)
  | .send (.inl d) new ok _ _ _ =>
    if !(atts ++ new).isEmpty && ok then some (toString d.job_id) else none
  | .send (.inr _) _ _ _ _ _ => none

def recordedIds (atts : List UploadedFile) (acts : List UserAction) : List String :=
  acts.filterMap (actionRecords atts)

/-! ### Concrete fixtures used by witnesses and counterexamples -/

def fileA : UploadedFile := ⟨"cv.pdf"⟩

def fileB : UploadedFile := ⟨"zeugnis.pdf"⟩

def profile0 : Profile := ⟨[], 0, 0, []⟩

def rowE1 : Row :=
  ⟨some "Assistenzarzt A", some "Spital 1", some "ZH", some "x@a.ch", none, some "d1"⟩

def rowE2 : Row :=
  ⟨some "Assistenzarzt B", some "Spital 2", some "BE", some "y@b.ch", none, some "d2"⟩

def rowE3 : Row :=
  ⟨some "Assistenzarzt C", some "Spital 3", some "VD", some "z@c.ch", none, some "d3"⟩

/-- A catalog row whose `hospital_name` column is missing, so
`row.get("hospital_name", "")` yields the empty (falsy) string. -/
def rowNoHosp : Row :=
  ⟨some "Assistenzarzt", none, some "ZH", some "a@x.ch", none, some "Dienst in der Klinik"⟩

def rowGood : Row :=
  ⟨some "Assistenzarzt", some "USZ", some "ZH", some "a@x.ch", none, some "Dienst"⟩

/-! ### Helper lemmas: first-occurrence splitting -/

theorem splitOnce_eq_firstOcc (pat : List Char) (hp : pat ≠ []) :
    ∀ l : List Char,
      splitOnce pat l =
        (firstOccIdx pat l).map (fun i => (l.take i, l.drop (i + pat.length))) := by
  intro l
  induction l with
  | nil =>
    obtain ⟨p, ps, rfl⟩ : ∃ p ps, pat = p :: ps := by
      cases pat with
      | nil => exact absurd rfl hp
      | cons p ps => exact ⟨p, ps, rfl⟩
    simp [splitOnce, firstOccIdx, List.range_succ, List.isPrefixOf]
  | cons x xs ih =>
    by_cases hpre : pat.isPrefixOf (x :: xs) = true
    · have h0 : firstOccIdx pat (x :: xs) = some 0 := by
        unfold firstOccIdx
        rw [List.range_succ_eq_map]
        exact List.find?_cons_of_pos _ (by simpa using hpre)
      simp [splitOnce, hpre, h0]
    · have hfun : ((fun i => pat.isPrefixOf ((x :: xs).drop i)) ∘ Nat.succ)
          = (fun i => pat.isPrefixOf (xs.drop i)) := by
        funext i
        simp [Function.comp, List.drop_succ_cons]
      have hstep : firstOccIdx pat (x :: xs) = (firstOccIdx pat xs).map Nat.succ := by
        unfold firstOccIdx
        simp only [List.length_cons]
        rw [List.range_succ_eq_map]
        rw [List.find?_cons_of_neg _ (by simpa using hpre)]
        rw [List.find?_map, hfun]
      rw [hstep]
      simp only [splitOnce, hpre, if_neg, Bool.false_eq_true, not_false_iff, ih]
      cases hocc : firstOccIdx pat xs with
      | none => simp
      | some i =>
        have h2 : (x :: xs).drop (i + 1 + pat.length) = xs.drop (i + pat.length) := by
          have h3 : i + 1 + pat.length = (i + pat.length) + 1 := by omega
          rw [h3, List.drop_succ_cons]
        simp [Nat.succ_eq_add_one, List.take_succ_cons, h2]

theorem pyContains_eq_isSome (pat : List Char) :
    ∀ l : List Char, pyContains pat l = (splitOnce pat l).isSome := by
  intro l
  induction l with
  | nil => simp [pyContains, splitOnce]
  | cons x xs ih =>
    by_cases hpre : pat.isPrefixOf (x :: xs) = true
    · simp [pyContains, splitOnce, hpre]
    · have hpre' : pat.isPrefixOf (x :: xs) = false := Bool.eq_false_iff.mpr hpre
      simp [pyContains, splitOnce, hpre', ih, Option.isSome_map]

theorem parseEmailResponse_eq_amended (response : Option String) :
    parseEmailResponse response = some (parseAmendedSpec response) := by
  cases response with
  | none => rfl
  | some r =>
    cases hocc : firstOccIdx sepL r.data with
    | none =>
      have hsplit : splitOnce sepL r.data = none := by
        rw [splitOnce_eq_firstOcc sepL (by decide), hocc]; rfl
      have hcont : pyContains sepL r.data = false := by
        rw [pyContains_eq_isSome, hsplit]; rfl
      simp [parseEmailResponse, parseAmendedSpec, hocc, hcont]
    | some i =>
      have hsplit : splitOnce sepL r.data = some (r.data.take i, r.data.drop (i + 3)) := by
        rw [splitOnce_eq_firstOcc sepL (by decide), hocc]; rfl
      have hcont : pyContains sepL r.data = true := by
        rw [pyContains_eq_isSome, hsplit]; rfl
      have hp : sepL.isPrefixOf (r.data.drop i) = true := by
        have h := List.find?_some (by simpa [firstOccIdx] using hocc :
          (List.range (r.data.length + 1)).find?
            (fun j => sepL.isPrefixOf (r.data.drop j)) = some i)
        simpa using h
      have hne : r.data.isEmpty = false := by
        cases hd : r.data with
        | nil => rw [hd] at hp; simp [sepL, List.isPrefixOf] at hp
        | cons c cs => rfl
      simp [parseEmailResponse, parseAmendedSpec, hocc, hcont, hne, pySplit1, hsplit]

/-! ### Claim C2 — email draft parsing contract -/

/-- Claim C2, counterexample.  The claim's parsing contract
(`parseClaimC2`: strip at most one leading `Betreff:` / `Subject:` label)
disagrees with the code on `"Betreff: A Subject: B|||  body  "` — the
code removes EVERY occurrence of both labels anywhere in part one,
yielding subject `"A  B"` where the claim predicts `"A Subject: B"` —
and on the empty response, where the code returns the fixed placeholder
body while the claim predicts the raw (empty) text. -/
theorem c2_parsing_counterexample :
    (generate_personalized_email "" none none none none
        (some "Betreff: A Subject: B|||  body  ")).2 ≠
      some (parseClaimC2 (some "Betreff: A Subject: B|||  body  ")) ∧
    (generate_personalized_email "" none none none none (some "")).2 ≠
      some (parseClaimC2 (some "")) := by
  decide

/-- Claim C2, amended: for every model response, `generate_personalized_email`
splits the response at the FIRST occurrence of `'|||'` into two parts,
obtains the subject by removing every occurrence of the literal
`Betreff:` and then every occurrence of the literal `Subject:`
(case-sensitive, anywhere in part one, left to right) and stripping
surrounding whitespace, and the body by stripping surrounding whitespace
from part two; for a non-empty response without `'|||'` it returns the
fixed fallback subject with the raw response text as body, and for an
empty response or a failed call the fixed fallback subject with the
fixed placeholder body (`parseAmendedSpec` states exactly this via the
independent first-occurrence function `firstOccIdx`). -/
theorem c2_parsing_amended (cv : String)
    (job_title hospital_name canton job_description : Option String)
    (response : Option String) :
    (generate_personalized_email cv job_title hospital_name canton
        job_description response).2 = some (parseAmendedSpec response) :=
  parseEmailResponse_eq_amended response

/-! ### Claim C10 — drafting result totality -/

/-- Claim C10: for every input, including a failed model call
(`response = none`) and a response lacking the `'|||'` separator,
`generate_personalized_email` returns a record with both `subject` and
`body` present — the result is never `none` (it never raises past its
boundary), so callers may read both fields unconditionally. -/
theorem c10_generate_email_total (cv : String)
    (job_title hospital_name canton job_description : Option String)
    (response : Option String) :
    ((generate_personalized_email cv job_title hospital_name canton
        job_description response).2).isSome = true := by
  rw [show (generate_personalized_email cv job_title hospital_name canton
      job_description response).2 = parseEmailResponse response from rfl]
  rw [parseEmailResponse_eq_amended response]
  rfl

/-! ### Claim C1 — job selection determinism -/

theorem findFrom_some_spec (applied : List String) :
    ∀ (rows : List Row) (n : Nat) (p : Nat × Row),
      findFrom applied n rows = some p →
      ∃ k, p.1 = n + k ∧ rows.get? k = some p.2 ∧
        applied.contains (toString (n + k)) = false ∧ eligibleRow p.2 = true ∧
        ∀ j r', j < k → rows.get? j = some r' →
          applied.contains (toString (n + j)) = true ∨ eligibleRow r' = false := by
  intro rows
  induction rows with
  | nil => intro n p h; simp [findFrom] at h
  | cons r rs ih =>
    intro n p h
    by_cases hc : (!applied.contains (toString n) && eligibleRow r) = true
    · rw [findFrom, if_pos hc] at h
      obtain rfl : (n, r) = p := Option.some.inj h
      obtain ⟨hc1, hc2⟩ := Bool.and_eq_true_iff.mp hc
      refine ⟨0, by simp, by simp, ?_, hc2, ?_⟩
      · simpa using hc1
      · intro j r' hj
        omega
    · rw [findFrom, if_neg hc] at h
      obtain ⟨k, h1, h2, h3, h4, h5⟩ := ih (n + 1) p h
      refine ⟨k + 1, by omega, by simpa using h2, ?_, h4, ?_⟩
      · have hn : n + (k + 1) = (n + 1) + k := by omega
        rw [hn]; exact h3
      · intro j r' hj hg
        cases j with
        | zero =>
          obtain rfl : r = r' := by simpa using hg
          rcases Bool.and_eq_false_iff.mp (Bool.eq_false_iff.mpr hc) with hl | hr
          · left
            simpa using hl
          · right; exact hr
        | succ j' =>
          have := h5 j' r' (by omega) (by simpa using hg)
          have hn : (n + 1) + j' = n + (j' + 1) := by omega
          rwa [hn] at this

theorem findFrom_none_spec (applied : List String) :
    ∀ (rows : List Row) (n : Nat), findFrom applied n rows = none →
      ∀ k r', rows.get? k = some r' →
        applied.contains (toString (n + k)) = true ∨ eligibleRow r' = false := by
  intro rows
  induction rows with
  | nil => intro n _ k r' hg; simp at hg
  | cons r rs ih =>
    intro n h k r' hg
    by_cases hc : (!applied.contains (toString n) && eligibleRow r) = true
    · rw [findFrom, if_pos hc] at h; exact absurd h (by simp)
    · rw [findFrom, if_neg hc] at h
      cases k with
      | zero =>
        obtain rfl : r = r' := by simpa using hg
        rcases Bool.and_eq_false_iff.mp (Bool.eq_false_iff.mpr hc) with hl | hr
        · left
          simpa using hl
        · right; exact hr
      | succ k' =>
        have := ih (n + 1) h k' r' (by simpa using hg)
        have hn : (n + 1) + k' = n + (k' + 1) := by omega
        rwa [hn] at this

/-- Claim C1: for every catalog and every applied set, the Job Finder's
selector returns the smallest zero-based row index whose stringified
index is not in the applied set and whose contact-email field is a
string containing `@` (`eligibleRow`), together with that row; it
returns `none` (catalog exhausted) exactly when no row qualifies.  The
scan takes no cursor — `render_job_finder_select` restarts from row zero
on each invocation by definition. -/
theorem c1_selector (rows : List Row) (applied : List String) :
    (∀ i r, render_job_finder_select rows applied = some (i, r) →
      rows.get? i = some r ∧ applied.contains (toString i) = false ∧
        eligibleRow r = true ∧
        ∀ j r', j < i → rows.get? j = some r' →
          applied.contains (toString j) = true ∨ eligibleRow r' = false) ∧
    (render_job_finder_select rows applied = none →
      ∀ j r', rows.get? j = some r' →
        applied.contains (toString j) = true ∨ eligibleRow r' = false) := by
  constructor
  · intro i r h
    obtain ⟨k, h1, h2, h3, h4, h5⟩ := findFrom_some_spec applied rows 0 (i, r) h
    obtain rfl : i = k := by simpa using h1
    refine ⟨h2, by simpa using h3, h4, ?_⟩
    intro j r' hj hg
    simpa using h5 j r' hj hg
  · intro h j r' hg
    simpa using findFrom_none_spec applied rows 0 h j r' hg

def catalogW : List Row := [rowE1, rowE2, rowE3]

/-- Witness for claim C1: on a three-row catalog with row 0 already
applied, the selector picks row 1 (the spec's own worked example), and
row 0 is indeed excluded by the applied set. -/
theorem c1_selector_witness :
    catalogW.get? 1 = some rowE2 ∧ List.contains ["0"] (toString 1) = false ∧
      eligibleRow rowE2 = true ∧
      (List.contains ["0"] (toString 0) = true ∨ eligibleRow rowE1 = false) := by
  have h := (c1_selector catalogW ["0"]).1 1 rowE2 (by decide)
  exact ⟨h.1, h.2.1, h.2.2.1, h.2.2.2 0 rowE1 (by omega) (by decide)⟩

/-! ### Claim C4 — contact-email extraction -/

theorem pySplitChar_ne_nil (c : Char) : ∀ l : List Char, pySplitChar c l ≠ [] := by
  intro l
  induction l with
  | nil => simp [pySplitChar]
  | cons x xs ih =>
    by_cases hx : x = c
    · simp [pySplitChar, hx]
    · cases hs : pySplitChar c xs with
      | nil => exact absurd hs ih
      | cons t ts => simp [pySplitChar, hx, hs]

theorem pySplitChar_headD (c : Char) :
    ∀ l : List Char, (pySplitChar c l).headD [] = l.takeWhile (fun x => x ≠ c) := by
  intro l
  induction l with
  | nil => simp [pySplitChar]
  | cons x xs ih =>
    by_cases hx : x = c
    · simp [pySplitChar, hx]
    · cases hs : pySplitChar c xs with
      | nil => exact absurd hs (pySplitChar_ne_nil c xs)
      | cons t ts =>
        rw [hs] at ih
        simp only [List.headD_cons] at ih
        simp [pySplitChar, hx, hs, List.takeWhile_cons, ih]

/-- Claim C4, counterexample.  On the field `"a@x.ch , b@y.ch"` the code
(`str(field).strip().split(",")[0]`, line 275) yields `"a@x.ch "` WITH a
trailing space, not the whitespace-trimmed token `"a@x.ch"` that the
claim (and its own example) predicts (`contactEmailClaim`). -/
theorem c4_contact_counterexample :
    contactEmailOf "a@x.ch , b@y.ch" ≠ contactEmailClaim "a@x.ch , b@y.ch" ∧
    contactEmailOf "a@x.ch , b@y.ch" = "a@x.ch " ∧
    (detailsOfRow 0 ⟨none, none, none, some "a@x.ch , b@y.ch", none, none⟩).contact_email =
      "a@x.ch " := by
  refine ⟨by decide, by decide, by decide⟩

/-- Claim C4, amended: the contact email used downstream equals the first
comma-separated token of the WHOLE-field-trimmed string — the field is
trimmed of surrounding whitespace first and then cut at the first comma,
so whitespace adjacent to the comma survives inside the token
(`contactEmailAmended` words this as the longest comma-free prefix of
the trimmed field). -/
theorem c4_contact_amended (s : String) :
    contactEmailOf s = contactEmailAmended s := by
  unfold contactEmailOf contactEmailAmended
  exact congrArg String.mk (pySplitChar_headD ',' (pyStrip s.data))

/-! ### Claim C3 — persistence as a fatal dependency for rendering -/

/-- Claim C3, counterexample.  A startup with
`FIREBASE_SERVICE_ACCOUNT_JSON` unset surfaces the error message but
renders NO page at all: lines 393-395 call `st.stop()` when no
persistence handle could be obtained, so the outcome is `halted`, not
the current (`auth`) page the claim promises. -/
theorem c3_persistence_counterexample :
    mainLayout none (fun _ => Except.error "unreachable") none Step.auth =
      (RenderOutcome.halted, ["Firebase service account JSON not found."]) ∧
    RenderOutcome.halted ≠ RenderOutcome.page Step.auth := by
  exact ⟨rfl, by decide⟩

/-- Claim C3, amended: whenever the persistence connection attempt
returns unavailable (missing `FIREBASE_SERVICE_ACCOUNT_JSON`, or a
parse/authentication failure), the application surfaces a non-empty
error message and HALTS rendering of the whole interactive surface
(`st.stop()`, lines 393-395) — no page, of any step, is rendered. -/
theorem c3_persistence_amended (env : Option String)
    (connect : String → Except String DbHandle) (step : Step)
    (h : (get_firestore_db env connect).1 = none) :
    mainLayout env connect none step =
      (RenderOutcome.halted, (get_firestore_db env connect).2) ∧
    (get_firestore_db env connect).2 ≠ [] := by
  cases env with
  | none => exact ⟨rfl, by simp [get_firestore_db]⟩
  | some s =>
    cases hc : connect s with
    | ok handle => simp [get_firestore_db, hc] at h
    | error e =>
      constructor
      · simp [mainLayout, get_firestore_db, hc]
      · simp [get_firestore_db, hc]

/-- Witness for claim C3 (amended): concrete unavailable-persistence
startups — a missing environment variable and a failing
parse/authentication — both halt with a surfaced error. -/
theorem c3_persistence_amended_witness :
    (get_firestore_db (some "not json") (fun _ => Except.error "bad json")).1 = none ∧
    mainLayout (some "not json") (fun _ => Except.error "bad json") none Step.main_app =
      (RenderOutcome.halted,
        (get_firestore_db (some "not json") (fun _ => Except.error "bad json")).2) := by
  exact ⟨rfl,
    (c3_persistence_amended (some "not json") (fun _ => Except.error "bad json")
      Step.main_app rfl).1⟩

/-! ### Claim C5 — CV upload attachment initialization -/

/-- Claim C5, counterexample.  Uploading `[fileA, fileB]` on the
`upload_cv` page sets the session attachment list to the WHOLE uploaded
list (line 415: `st.session_state.attachments = uploaded_files`), so the
attachment list is `[fileA, fileB]` — not the tail `[fileB]` the claim
predicts — and the CV file `fileA` IS a member of it. -/
theorem c5_upload_counterexample :
    (upload_cv_step defaultSession [fileA, fileB]).1.attachments = [fileA, fileB] ∧
    [fileA, fileB] ≠ [fileB] ∧
    fileA ∈ (upload_cv_step defaultSession [fileA, fileB]).1.attachments := by
  refine ⟨rfl, by decide, by decide⟩

/-- Claim C5, amended: for every non-empty multi-file upload on the
`upload_cv` page, the first file is treated as the CV and the ENTIRE
uploaded list — including the CV file itself — becomes the session's
attachment list; in particular the CV file is a member of the initial
attachment list.  An empty upload leaves the session unchanged. -/
theorem c5_upload_amended (sess : Session) (f : UploadedFile) (fs : List UploadedFile) :
    (upload_cv_step sess (f :: fs)).1.attachments = f :: fs ∧
    (upload_cv_step sess (f :: fs)).2 = some f ∧
    f ∈ (upload_cv_step sess (f :: fs)).1.attachments ∧
    upload_cv_step sess [] = (sess, none) := by
  refine ⟨rfl, rfl, ?_, rfl⟩
  show f ∈ f :: fs
  exact List.mem_cons_self f fs

/-! ### Claim C6 — structured drafting branch for catalog jobs -/

/-- Claim C6, counterexample.  A catalog row whose `hospital_name`
column is missing yields `current_job_details.hospital_name = ""`
(`row.get("hospital_name", "")`, line 274), which is falsy, so the
generator's `if job_title and hospital_name:` branch (line 100) embeds
the UNSTRUCTURED extract-it-yourself block into the prompt — not the
structured block the claim promises for every catalog job.  The
structured block cannot even occur inside that job-details segment: it
is strictly longer. -/
theorem c6_prompt_counterexample :
    jobDetailsBlock (some (detailsOfRow 0 rowNoHosp).job_title)
        (some (detailsOfRow 0 rowNoHosp).hospital_name)
        (some (detailsOfRow 0 rowNoHosp).canton)
        (some (detailsOfRow 0 rowNoHosp).job_description) =
      unstructuredBlock (detailsOfRow 0 rowNoHosp).job_description ∧
    (generate_personalized_email "CV" (some (detailsOfRow 0 rowNoHosp).job_title)
        (some (detailsOfRow 0 rowNoHosp).hospital_name)
        (some (detailsOfRow 0 rowNoHosp).canton)
        (some (detailsOfRow 0 rowNoHosp).job_description) none).1 =
      promptHeader "CV" ++ unstructuredBlock (detailsOfRow 0 rowNoHosp).job_description ++
        promptInstructions ∧
    ¬ ((structuredBlock (detailsOfRow 0 rowNoHosp).job_title
        (detailsOfRow 0 rowNoHosp).hospital_name (detailsOfRow 0 rowNoHosp).canton
        (detailsOfRow 0 rowNoHosp).job_description).data <:+:
      (unstructuredBlock (detailsOfRow 0 rowNoHosp).job_description).data) := by
  refine ⟨rfl, rfl, fun h => ?_⟩
  have hlen := h.length_le
  have hs : (structuredBlock (detailsOfRow 0 rowNoHosp).job_title
      (detailsOfRow 0 rowNoHosp).hospital_name (detailsOfRow 0 rowNoHosp).canton
      (detailsOfRow 0 rowNoHosp).job_description).data.length = 101 := by decide
  have hu : (unstructuredBlock
      (detailsOfRow 0 rowNoHosp).job_description).data.length = 85 := by decide
  rw [hs, hu] at hlen
  omega

/-- Claim C6, amended: for every catalog job whose derived `job_title`
and `hospital_name` detail fields are both non-empty (Python-truthy),
"Prepare Application" invokes the generator with the structured branch —
the prompt contains, as a contiguous segment, the structured block
listing Position, Hospital, Canton, and Job Description verbatim from
the row's fields.  A catalog row with an empty (falsy) `job_title` or
`hospital_name` instead gets the unstructured block (see the
counterexample). -/
theorem c6_prompt_amended (cv : String) (i : Nat) (r : Row) (resp : Option String)
    (h1 : (detailsOfRow i r).job_title ≠ "")
    (h2 : (detailsOfRow i r).hospital_name ≠ "") :
    (structuredBlock (detailsOfRow i r).job_title (detailsOfRow i r).hospital_name
        (detailsOfRow i r).canton (detailsOfRow i r).job_description).data <:+:
      ((generate_personalized_email cv (some (detailsOfRow i r).job_title)
        (some (detailsOfRow i r).hospital_name) (some (detailsOfRow i r).canton)
        (some (detailsOfRow i r).job_description) resp).1).data := by
  have hdata : ∀ s : String, s ≠ "" → s.data.isEmpty = false := by
    intro s hs
    cases hd : s.data with
    | nil => exact absurd (String.ext (by rw [hd])) hs
    | cons c cs => rfl
  have ht1 : pyTruthy (some (detailsOfRow i r).job_title) = true := by
    simp [pyTruthy, hdata _ h1]
  have ht2 : pyTruthy (some (detailsOfRow i r).hospital_name) = true := by
    simp [pyTruthy, hdata _ h2]
  have hblock : jobDetailsBlock (some (detailsOfRow i r).job_title)
      (some (detailsOfRow i r).hospital_name) (some (detailsOfRow i r).canton)
      (some (detailsOfRow i r).job_description) =
      structuredBlock (detailsOfRow i r).job_title (detailsOfRow i r).hospital_name
        (detailsOfRow i r).canton (detailsOfRow i r).job_description := by
    simp [jobDetailsBlock, ht1, ht2, pyStr]
  show (structuredBlock _ _ _ _).data <:+:
    (promptHeader cv ++
      jobDetailsBlock (some (detailsOfRow i r).job_title)
        (some (detailsOfRow i r).hospital_name) (some (detailsOfRow i r).canton)
        (some (detailsOfRow i r).job_description) ++ promptInstructions).data
  rw [hblock, String.data_append, String.data_append]
  exact ⟨(promptHeader cv).data, promptInstructions.data, rfl⟩

/-- Witness for claim C6 (amended): a fully populated catalog row meets
both non-emptiness hypotheses and its structured block appears verbatim
in the prompt built by "Prepare Application". -/
theorem c6_prompt_amended_witness :
    (detailsOfRow 0 rowGood).job_title ≠ "" ∧
    (detailsOfRow 0 rowGood).hospital_name ≠ "" ∧
    ((structuredBlock (detailsOfRow 0 rowGood).job_title
        (detailsOfRow 0 rowGood).hospital_name (detailsOfRow 0 rowGood).canton
        (detailsOfRow 0 rowGood).job_description).data <:+:
      ((generate_personalized_email "CV" (some (detailsOfRow 0 rowGood).job_title)
        (some (detailsOfRow 0 rowGood).hospital_name)
        (some (detailsOfRow 0 rowGood).canton)
        (some (detailsOfRow 0 rowGood).job_description) none).1).data) :=
  ⟨by decide, by decide,
    c6_prompt_amended "CV" 0 rowGood none (by decide) (by decide)⟩

/-! ### Claim C7 — send precondition (zero attachments) -/

/-- Claim C7: a Review/Send submission whose effective attachment set
(session attachments plus files newly picked in that submission) is
empty is rejected (lines 353-356): independently of everything else —
including whether the external send would have succeeded — the session
and the profile come back unchanged (no `SentEmail` record, no
`stats.sent_count` change, no `applied_jobs` change) and the outcome is
the rejection warning, not a send attempt. -/
theorem c7_send_guard (details : JobDetails ⊕ ManualJobDetails) (sess : Session)
    (prof : Profile) (new_attachments : List UploadedFile) (sendOk : Bool)
    (contact_email subject body : String)
    (h : sess.attachments ++ new_attachments = []) :
    render_application_form_submit details sess prof new_attachments sendOk
        contact_email subject body =
      (sess, prof, SendOutcome.rejectedNoAttachments) := by
  simp [render_application_form_submit, h]

/-- Witness for claim C7: a concrete submission with no session
attachments and no newly picked files is rejected unchanged even though
the send itself would have succeeded. -/
theorem c7_send_guard_witness :
    defaultSession.attachments ++ ([] : List UploadedFile) = [] ∧
    render_application_form_submit (Sum.inr ⟨"Manual Entry", "a@b.ch", "Dienst"⟩)
        defaultSession profile0 [] true "a@b.ch" "Betreff" "Text" =
      (defaultSession, profile0, SendOutcome.rejectedNoAttachments) :=
  ⟨rfl, c7_send_guard (Sum.inr ⟨"Manual Entry", "a@b.ch", "Dienst"⟩)
    defaultSession profile0 [] true "a@b.ch" "Betreff" "Text" rfl⟩

/-! ### Claim C8 — applied-set monotonicity -/

theorem mem_arrayUnion (l : List String) (y x : String) :
    x ∈ arrayUnion l y ↔ x ∈ l ∨ x = y := by
  unfold arrayUnion
  by_cases hy : y ∈ l
  · rw [if_pos hy]
    exact ⟨Or.inl, fun h => h.elim id (fun he => he ▸ hy)⟩
  · rw [if_neg hy]
    simp [List.mem_append]

theorem applyAction_attachments (sp : Session × Profile) (a : UserAction) :
    (applyAction sp a).1.attachments = sp.1.attachments := by
  cases a with
  | skip j => rfl
  | send det new ok ce su bo =>
    rcases det with d | m <;>
      by_cases h : (sp.1.attachments ++ new).isEmpty = true <;>
        cases ok <;>
          simp [applyAction, render_application_form_submit, h]

theorem applyAction_applied_iff (sp : Session × Profile) (a : UserAction) (x : String) :
    x ∈ (applyAction sp a).2.applied_jobs ↔
      x ∈ sp.2.applied_jobs ∨ actionRecords sp.1.attachments a = some x := by
  cases a with
  | skip j =>
    show x ∈ arrayUnion sp.2.applied_jobs (toString j) ↔ _
    rw [mem_arrayUnion]
    simp [actionRecords, eq_comm]
  | send det new ok ce su bo =>
    rcases det with d | m
    · by_cases h : (sp.1.attachments ++ new).isEmpty = true
      · simp [applyAction, render_application_form_submit, actionRecords, h]
      · cases ok with
        | true =>
          have : x ∈ arrayUnion sp.2.applied_jobs (toString d.job_id) ↔
              x ∈ sp.2.applied_jobs ∨ x = toString d.job_id :=
            mem_arrayUnion _ _ _
          simp [applyAction, render_application_form_submit, actionRecords, h, this,
            eq_comm]
        | false =>
          simp [applyAction, render_application_form_submit, actionRecords, h]
    · by_cases h : (sp.1.attachments ++ new).isEmpty = true <;>
        cases ok <;>
          simp [applyAction, render_application_form_submit, actionRecords, h]

theorem runActions_applied_iff (acts : List UserAction) :
    ∀ (sp : Session × Profile) (x : String),
      x ∈ (runActions sp acts).2.applied_jobs ↔
        x ∈ sp.2.applied_jobs ∨ x ∈ recordedIds sp.1.attachments acts := by
  induction acts with
  | nil => intro sp x; simp [runActions, recordedIds]
  | cons a as ih =>
    intro sp x
    rw [show runActions sp (a :: as) = runActions (applyAction sp a) as from rfl]
    rw [ih (applyAction sp a) x, applyAction_applied_iff, applyAction_attachments]
    unfold recordedIds
    rw [List.filterMap_cons]
    cases hrec : actionRecords sp.1.attachments a with
    | none => simp [hrec]
    | some y => simp [hrec, eq_comm, or_assoc]

/-- Claim C8: for every sequence of skip and send actions, the
`applied_jobs` set after the sequence contains everything it contained
before (no action ever removes an element), and its membership is
exactly the union of the previously present ids with the ids durably
recorded by the sequence — every skipped id plus every id of a
successful catalog-mode send with a non-empty attachment set
(`recordedIds`); manual-mode sends record nothing. -/
theorem c8_applied_monotone (sp : Session × Profile) (acts : List UserAction) :
    (∀ x, x ∈ sp.2.applied_jobs → x ∈ (runActions sp acts).2.applied_jobs) ∧
    (∀ x, x ∈ (runActions sp acts).2.applied_jobs ↔
      x ∈ sp.2.applied_jobs ∨ x ∈ recordedIds sp.1.attachments acts) :=
  ⟨fun x hx => (runActions_applied_iff acts sp x).mpr (Or.inl hx),
    fun x => runActions_applied_iff acts sp x⟩

def sessionW : Session := { defaultSession with attachments := [fileA] }

def profileW : Profile := ⟨["7"], 2, 1, []⟩

def jdW : JobDetails := ⟨4, "Arzt", "Spital", "ZH", "a@b.ch", "", "Dienst"⟩

def actsW : List UserAction :=
  [UserAction.skip 3, UserAction.send (Sum.inl jdW) [] true "a@b.ch" "s" "b"]

/-- Witness for claim C8: after a concrete skip-then-send sequence the
pre-existing id `"7"` is still applied, and the skipped id `"3"` and the
sent catalog id `"4"` have been recorded. -/
theorem c8_applied_monotone_witness :
    "7" ∈ (runActions (sessionW, profileW) actsW).2.applied_jobs ∧
    "3" ∈ (runActions (sessionW, profileW) actsW).2.applied_jobs ∧
    "4" ∈ (runActions (sessionW, profileW) actsW).2.applied_jobs :=
  ⟨(c8_applied_monotone (sessionW, profileW) actsW).1 "7" (by decide),
    ((c8_applied_monotone (sessionW, profileW) actsW).2 "3").mpr (Or.inr (by decide)),
    ((c8_applied_monotone (sessionW, profileW) actsW).2 "4").mpr (Or.inr (by decide))⟩

/-! ### Claim C9 — manual entry isolation -/

theorem manual_submit_eq (sess : Session) (prof : Profile) (ce jd : String)
    (gen : EmailContent) (h0 : sess.manual_email_content = none)
    (hce : ce.data.isEmpty = false) (hjd : jd.data.isEmpty = false) :
    render_manual_job_page_submit sess prof ce jd gen =
      ({ sess with
          manual_job_details := some ⟨"Manual Entry", ce, jd⟩
          manual_email_content := some gen }, prof, 1) := by
  unfold render_manual_job_page_submit
  rw [h0]
  simp [hce, hjd]

theorem manual_send_eq (sess : Session) (prof : Profile) (m : ManualJobDetails)
    (new : List UploadedFile) (rcpt su bo : String)
    (hatt : (sess.attachments ++ new).isEmpty = false) :
    render_application_form_submit (Sum.inr m) sess prof new true rcpt su bo =
      ({ sess with manual_email_content := none },
        { prof with
            sent_emails := prof.sent_emails ++ [⟨rcpt, su, bo, m.job_title, "Manual Entry"⟩] },
        SendOutcome.sentOk) := by
  unfold render_application_form_submit
  simp [hatt]

/-- Claim C9: a manual job submission touches neither the profile
(`applied_jobs`, `stats`, `sent_emails`) nor `current_job_id` — its full
effect is storing `manual_job_details` and the generated draft, with
exactly one draft-generation call; a successful manual-mode send only
appends a `SentEmail` record and clears the manual draft (profile
`applied_jobs` / counters and `current_job_id` untouched); and a second
submission with identical text afterwards again triggers exactly one
independent draft-generation call with no deduplication against the
first. -/
theorem c9_manual_isolation (sess : Session) (prof : Profile) (ce jd : String)
    (gen gen2 : EmailContent) (new : List UploadedFile) (rcpt su bo : String)
    (h0 : sess.manual_email_content = none) (hce : ce.data ≠ []) (hjd : jd.data ≠ [])
    (hatt : (sess.attachments ++ new).isEmpty = false) :
    render_manual_job_page_submit sess prof ce jd gen =
      ({ sess with
          manual_job_details := some ⟨"Manual Entry", ce, jd⟩
          manual_email_content := some gen }, prof, 1) ∧
    render_application_form_submit (Sum.inr ⟨"Manual Entry", ce, jd⟩)
        { sess with
            manual_job_details := some ⟨"Manual Entry", ce, jd⟩
            manual_email_content := some gen } prof new true rcpt su bo =
      ({ sess with
          manual_job_details := some ⟨"Manual Entry", ce, jd⟩
          manual_email_content := none },
        { prof with
            sent_emails :=
              prof.sent_emails ++ [⟨rcpt, su, bo, "Manual Entry", "Manual Entry"⟩] },
        SendOutcome.sentOk) ∧
    render_manual_job_page_submit
        { sess with
            manual_job_details := some ⟨"Manual Entry", ce, jd⟩
            manual_email_content := none }
        { prof with
            sent_emails :=
              prof.sent_emails ++ [⟨rcpt, su, bo, "Manual Entry", "Manual Entry"⟩] }
        ce jd gen2 =
      ({ sess with
          manual_job_details := some ⟨"Manual Entry", ce, jd⟩
          manual_email_content := some gen2 },
        { prof with
            sent_emails :=
              prof.sent_emails ++ [⟨rcpt, su, bo, "Manual Entry", "Manual Entry"⟩] },
        1) := by
  have hceB : ce.data.isEmpty = false := by simpa [List.isEmpty_iff] using hce
  have hjdB : jd.data.isEmpty = false := by simpa [List.isEmpty_iff] using hjd
  refine ⟨manual_submit_eq sess prof ce jd gen h0 hceB hjdB, ?_, ?_⟩
  · exact manual_send_eq _ prof ⟨"Manual Entry", ce, jd⟩ new rcpt su bo hatt
  · exact manual_submit_eq _ _ ce jd gen2 rfl hceB hjdB

def genW : EmailContent := ⟨"Betreff eins", "Text eins"⟩

def genW2 : EmailContent := ⟨"Betreff zwei", "Text zwei"⟩

/-- Witness for claim C9: a concrete manual submission leaves the
profile untouched and performs exactly one generation call. -/
theorem c9_manual_isolation_witness :
    (render_manual_job_page_submit sessionW profileW "a@b.ch" "Dienst" genW).2.1 =
      profileW ∧
    (render_manual_job_page_submit sessionW profileW "a@b.ch" "Dienst" genW).2.2 = 1 := by
  have h := c9_manual_isolation sessionW profileW "a@b.ch" "Dienst" genW genW2 []
    "to@x.ch" "Betreff" "Text" rfl (by decide) (by decide) (by decide)
  exact ⟨by rw [h.1], by rw [h.1]⟩
